import Mathlib

/-!
Shallow embedding of `src/Spreadsheet.py` (class `Spreadsheet`): the
range-notation resolver `toGridRange`, the two pending queues
(`requests`, `valueRanges`), the batch flush `runPrepared`, and the
`prepare_*` queueing operations, together with theorems settling the
specification claims about them.

Python dictionaries produced by `toGridRange` are embedded as
association lists `Grid = List (String × Int)`; Python exceptions are
embedded as the `Except Err` monad; the remote Sheets service is an
explicit parameter (`Service`) and the outbound network calls performed
by a flush are returned as an explicit trace (`List Call`).
-/

namespace SheetsClient

/-- Exceptions that the embedded code can raise.  `spreadsheetNotSetError`
and `sheetNotSetError` embed the module's own exception classes;
`indexError`, `valueError` and `keyError` embed the corresponding Python
builtin exceptions; `remoteError` embeds an HTTP failure surfaced by the
`googleapiclient` service object. -/
inductive Err where
  | spreadsheetNotSetError
  | sheetNotSetError
  | indexError
  | valueError
  | keyError
  | remoteError (msg : String)
  deriving DecidableEq, Repr

/-- A GridRange dictionary: insertion-ordered association list from field
names to integer values, exactly mirroring the Python `dict` built by
`toGridRange`. -/
abbrev Grid := List (String × Int)

/-- Python `d[k]`: value of the first entry with key `k`, if any. -/
def getKey (k : String) : Grid → Option Int
  | [] => none
  | (k1, v) :: rest => if k1 = k then some v else getKey k rest

/-- Python `d[k] = v`: replace the value of the first entry with key `k`,
or append a fresh entry when the key is absent. -/
def setKey (g : Grid) (k : String) (v : Int) : Grid :=
  match g with
  | [] => [(k, v)]
  | (k1, v1) :: rest => if k1 = k then (k, v) :: rest else (k1, v1) :: setKey rest k v

/-- Python `s.split(sep)` for a one-character separator, on `List Char`:
always returns at least one token, and an empty input yields `[[]]`. -/
def splitOnChar (sep : Char) : List Char → List (List Char)
  | [] => [[]]
  | c :: cs =>
    if c = sep then [] :: splitOnChar sep cs
    else
      match splitOnChar sep cs with
      | t :: ts => (c :: t) :: ts
      | [] => [[c]]

/-- Numeric value of a decimal digit character. -/
def digitVal (c : Char) : Nat := c.toNat - 48

/-- Left fold computing the value of a decimal digit string, the way a
textbook scanner (and CPython's string-to-int conversion) accumulates it. -/
def pyNatVal (s : List Char) : Nat := s.foldl (fun a c => 10 * a + digitVal c) 0

/-- The mathematical value of a decimal digit string, via Mathlib's
`Nat.ofDigits` on the little-endian digit list. -/
def decimalVal (s : List Char) : Nat := Nat.ofDigits 10 ((s.map digitVal).reverse)

/-- ASCII decimal digit test, `'0' ≤ c ≤ '9'` by code point. -/
def isDecimalDigit (c : Char) : Bool := 48 ≤ c.toNat && c.toNat ≤ 57

/-- Python `int(s)` restricted to an unsigned body: requires a non-empty
all-digit string, otherwise raises `ValueError`. -/
def pyNatParse (s : List Char) : Except Err Nat :=
  if s.isEmpty then .error .valueError
  else if s.all isDecimalDigit then .ok (pyNatVal s)
  else .error .valueError

/-- Python `int(s)`: an optional sign followed by digits.  (CPython also
tolerates surrounding whitespace and inner underscores; those inputs never
arise from the range grammar and are conservatively rejected here.) -/
def pyInt (s : List Char) : Except Err Int :=
  match s with
  | [] => (pyNatParse []).map (fun n => (n : Int))
  | c :: rest =>
    if c = '-' then (pyNatParse rest).map (fun n => -(n : Int))
    else if c = '+' then (pyNatParse rest).map (fun n => (n : Int))
    else (pyNatParse (c :: rest)).map (fun n => (n : Int))

/-- `ord(c) in range(ord('A'), ord('Z') + 1)`. -/
def isUpperAZ (c : Char) : Bool := 65 ≤ c.toNat && c.toNat ≤ 90

/-- A structural mutation queued on `self.requests`, embedding the JSON
request payloads built by the `prepare_*` methods.  Format payloads are
kept opaque as strings since the code passes them through unchanged. -/
inductive Request where
  | addSheet (title : List Char) (rows cols : Int)
  | updateDimensionProperties (dimension : String) (sheetId startIndex endIndex pixelSize : Int)
  | mergeCells (range : Grid) (mergeType : String)
  | repeatCell (range : Grid) (format fields : String)
  | updateCells (range : Grid) (formats : List (List String)) (fields : String)
  deriving DecidableEq, Repr

/-- A pending value write queued on `self.valueRanges`. -/
structure ValueRange where
  range : List Char
  majorDimension : String
  values : List (List String)
  deriving DecidableEq, Repr

/-- One reply of the batch-structural-update endpoint.  `addSheetReply`
carries the `addSheet.properties.sheetId` and `.title` fields that
`addSheet` reads back; any other reply shape is `otherReply`. -/
inductive Reply where
  | addSheetReply (sheetId : Int) (title : List Char)
  | otherReply (payload : String)
  deriving DecidableEq, Repr

/-- One outbound network call made by `runPrepared`. -/
inductive Call where
  | structuralCall (spreadsheetId : String) (requests : List Request)
  | valuesCall (spreadsheetId : String) (valueInputOption : String) (data : List ValueRange)
  deriving DecidableEq, Repr

/-- The remote Sheets service, abstracted as the two batch endpoints that
`runPrepared` invokes; each may fail with an HTTP error message. -/
structure Service where
  batchUpdate : String → List Request → Except String (List Reply)
  valuesBatchUpdate : String → String → List ValueRange → Except String (List String)

/-- The mutable state of a `Spreadsheet` object: the three bindings and
the two pending queues set up in `__init__`. -/
structure SpreadsheetState where
  spreadsheetId : Option String
  sheetId : Option Int
  sheetTitle : Option (List Char)
  requests : List Request
  valueRanges : List ValueRange
  deriving DecidableEq, Repr

/-- The argument of `toGridRange`: either a range string or an
already-structured range dictionary (`isinstance(cellsRange, str)` test). -/
inductive RangeInput where
  | str (s : List Char)
  | grid (g : Grid)

/-- `if len(tok) > 0: d[key] = int(tok) + adj` — the row-bound step of
`toGridRange`, returning the (possibly empty) dictionary fragment. -/
def rowBound (key : String) (tok : List Char) (adj : Int) : Except Err Grid :=
  if tok.isEmpty then .ok []
  else (pyInt tok).map (fun n => [(key, n + adj)])

/-- The body of `toGridRange`'s string branch once the two tokens are in
hand (lines 140-150): strip an optional leading column letter from each
token, then parse the optional row numbers.  An empty token raises
`IndexError` at `tok[0]`. -/
def parseCells (startCell endCell : List Char) : Except Err Grid :=
  match startCell with
  | [] => .error .indexError
  | a :: srest =>
    let colS : Grid := if isUpperAZ a then [("startColumnIndex", (a.toNat : Int) - 65)] else []
    let s1 : List Char := if isUpperAZ a then srest else a :: srest
    match endCell with
    | [] => .error .indexError
    | b :: erest =>
      let colE : Grid := if isUpperAZ b then [("endColumnIndex", (b.toNat : Int) - 65 + 1)] else []
      let e1 : List Char := if isUpperAZ b then erest else b :: erest
      match rowBound "startRowIndex" s1 (-1) with
      | .error e => .error e
      | .ok rs =>
        match rowBound "endRowIndex" e1 0 with
        | .error e => .error e
        | .ok re => .ok (colS ++ colE ++ rs ++ re)

/-- The string branch of `toGridRange` (lines 138-150): split on ":",
take the first two tokens and process them; a missing ":" raises
`ValueError` at the tuple unpacking `startCell, endCell = ...`. -/
def parseRange (s : List Char) : Except Err Grid :=
  match splitOnChar ':' s with
  | startCell :: endCell :: _ => parseCells startCell endCell
  | _ => .error .valueError

/-- `Spreadsheet.toGridRange` (lines 134-152): requires a bound sheet,
parses a string input or passes a structured input through, and finally
writes `sheetId` into the dictionary. -/
def toGridRange (σ : SpreadsheetState) (cellsRange : RangeInput) : Except Err Grid :=
  match σ.sheetId with
  | none => .error .sheetNotSetError
  | some sid =>
    match (match cellsRange with
           | .grid g => .ok g
           | .str s => parseRange s : Except Err Grid) with
    | .error e => .error e
    | .ok g => .ok (setKey g "sheetId" sid)

/-- `Spreadsheet.runPrepared` (lines 98-116): raises
`SpreadsheetNotSetError` when no spreadsheet id is bound (before the
`try`, so the queues survive); otherwise issues the structural batch call
when `requests` is non-empty and then the value batch call when
`valueRanges` is non-empty, clears both queues in the `finally` block on
every path through the `try`, and returns the two reply lists.  The
result carries the post-call object state, the trace of outbound calls,
and the returned pair or the propagated exception. -/
def runPrepared (svc : Service) (valueInputOption : String) (σ : SpreadsheetState) :
    SpreadsheetState × List Call × Except Err (List Reply × List String) :=
  match σ.spreadsheetId with
  | none => (σ, [], .error .spreadsheetNotSetError)
  | some ssid =>
    let σF : SpreadsheetState := { σ with requests := [], valueRanges := [] }
    if σ.requests.isEmpty then
      if σ.valueRanges.isEmpty then (σF, [], .ok ([], []))
      else
        match svc.valuesBatchUpdate ssid valueInputOption σ.valueRanges with
        | .ok resps => (σF, [.valuesCall ssid valueInputOption σ.valueRanges], .ok ([], resps))
        | .error e => (σF, [.valuesCall ssid valueInputOption σ.valueRanges], .error (.remoteError e))
    else
      match svc.batchUpdate ssid σ.requests with
      | .error e => (σF, [.structuralCall ssid σ.requests], .error (.remoteError e))
      | .ok replies =>
        if σ.valueRanges.isEmpty then
          (σF, [.structuralCall ssid σ.requests], .ok (replies, []))
        else
          match svc.valuesBatchUpdate ssid valueInputOption σ.valueRanges with
          | .ok resps =>
            (σF, [.structuralCall ssid σ.requests, .valuesCall ssid valueInputOption σ.valueRanges],
             .ok (replies, resps))
          | .error e =>
            (σF, [.structuralCall ssid σ.requests, .valuesCall ssid valueInputOption σ.valueRanges],
             .error (.remoteError e))

/-- `Spreadsheet.prepare_addSheet` (lines 118-119): unconditionally
appends an `addSheet` request; performs no validation at all. -/
def prepare_addSheet (σ : SpreadsheetState) (sheetTitle : List Char) (rows cols : Int) :
    SpreadsheetState :=
  { σ with requests := σ.requests ++ [.addSheet sheetTitle rows cols] }

/-- `Spreadsheet.addSheet` (lines 122-129): checks the spreadsheet
binding, queues the add-sheet request, flushes, reads
`replies[0].addSheet.properties` from the first structural reply (an
empty reply list gives `IndexError`, a differently-shaped reply gives
`KeyError`), rebinds the current sheet and returns its id. -/
def addSheet (svc : Service) (σ : SpreadsheetState) (sheetTitle : List Char) (rows cols : Int) :
    SpreadsheetState × List Call × Except Err Int :=
  match σ.spreadsheetId with
  | none => (σ, [], .error .spreadsheetNotSetError)
  | some _ =>
    match runPrepared svc "USER_ENTERED" (prepare_addSheet σ sheetTitle rows cols) with
    | (σ2, calls, .error e) => (σ2, calls, .error e)
    | (σ2, calls, .ok (replies, _)) =>
      match replies with
      | .addSheetReply sid title :: _ =>
        ({ σ2 with sheetId := some sid, sheetTitle := some title }, calls, .ok sid)
      | .otherReply _ :: _ => (σ2, calls, .error .keyError)
      | [] => (σ2, calls, .error .indexError)

/-- `Spreadsheet.prepare_setDimensionPixelSize` (lines 154-163): requires
a bound sheet id (raising `SheetNotSetError` before touching the queue),
then appends an `updateDimensionProperties` request. -/
def prepare_setDimensionPixelSize (σ : SpreadsheetState) (dimension : String)
    (startIndex endIndex pixelSize : Int) : SpreadsheetState × Except Err Unit :=
  match σ.sheetId with
  | none => (σ, .error .sheetNotSetError)
  | some sid =>
    ({ σ with requests :=
        σ.requests ++ [.updateDimensionProperties dimension sid startIndex endIndex pixelSize] },
     .ok ())

/-- `Spreadsheet.prepare_setColumnsWidth` (lines 165-166). -/
def prepare_setColumnsWidth (σ : SpreadsheetState) (startCol endCol width : Int) :
    SpreadsheetState × Except Err Unit :=
  prepare_setDimensionPixelSize σ "COLUMNS" startCol (endCol + 1) width

/-- `Spreadsheet.prepare_setColumnWidth` (lines 168-169). -/
def prepare_setColumnWidth (σ : SpreadsheetState) (col width : Int) :
    SpreadsheetState × Except Err Unit :=
  prepare_setColumnsWidth σ col col width

/-- `Spreadsheet.prepare_setRowsHeight` (lines 171-172). -/
def prepare_setRowsHeight (σ : SpreadsheetState) (startRow endRow height : Int) :
    SpreadsheetState × Except Err Unit :=
  prepare_setDimensionPixelSize σ "ROWS" startRow (endRow + 1) height

/-- `Spreadsheet.prepare_setRowHeight` (lines 174-175). -/
def prepare_setRowHeight (σ : SpreadsheetState) (row height : Int) :
    SpreadsheetState × Except Err Unit :=
  prepare_setRowsHeight σ row row height

/-- `Spreadsheet.prepare_setValues` (lines 177-180): requires a bound
sheet title (raising `SheetNotSetError` before touching the queue), then
appends a value range addressed as `"<sheetTitle>!<cellsRange>"`. -/
def prepare_setValues (σ : SpreadsheetState) (cellsRange : List Char)
    (values : List (List String)) (majorDimension : String) :
    SpreadsheetState × Except Err Unit :=
  match σ.sheetTitle with
  | none => (σ, .error .sheetNotSetError)
  | some title =>
    ({ σ with valueRanges :=
        σ.valueRanges ++ [⟨title ++ '!' :: cellsRange, majorDimension, values⟩] },
     .ok ())

/-- `Spreadsheet.prepare_mergeCells` (lines 182-183): resolves the range
(which can raise `SheetNotSetError`) and appends a `mergeCells` request. -/
def prepare_mergeCells (σ : SpreadsheetState) (cellsRange : RangeInput) (mergeType : String) :
    SpreadsheetState × Except Err Unit :=
  match toGridRange σ cellsRange with
  | .error e => (σ, .error e)
  | .ok g => ({ σ with requests := σ.requests ++ [.mergeCells g mergeType] }, .ok ())

/-- `Spreadsheet.prepare_setCellsFormat` (lines 186-187). -/
def prepare_setCellsFormat (σ : SpreadsheetState) (cellsRange : RangeInput)
    (formatJSON fields : String) : SpreadsheetState × Except Err Unit :=
  match toGridRange σ cellsRange with
  | .error e => (σ, .error e)
  | .ok g => ({ σ with requests := σ.requests ++ [.repeatCell g formatJSON fields] }, .ok ())

/-- `Spreadsheet.prepare_setCellsFormats` (lines 190-193). -/
def prepare_setCellsFormats (σ : SpreadsheetState) (cellsRange : RangeInput)
    (formatsJSON : List (List String)) (fields : String) : SpreadsheetState × Except Err Unit :=
  match toGridRange σ cellsRange with
  | .error e => (σ, .error e)
  | .ok g => ({ σ with requests := σ.requests ++ [.updateCells g formatsJSON fields] }, .ok ())

/-! ### Helper lemmas about the embedded primitives -/

theorem splitOnChar_ne_nil (sep : Char) (s : List Char) : splitOnChar sep s ≠ [] := by
  cases s with
  | nil => simp [splitOnChar]
  | cons c cs =>
    simp only [splitOnChar]
    split
    · simp
    · split <;> simp

theorem splitOnChar_no_sep (sep : Char) (s : List Char) (h : sep ∉ s) :
    splitOnChar sep s = [s] := by
  induction s with
  | nil => rfl
  | cons c cs ih =>
    have hc : ¬ (c = sep) := fun e => h (e ▸ List.mem_cons_self c cs)
    have hcs : sep ∉ cs := fun m => h (List.mem_cons_of_mem _ m)
    simp only [splitOnChar, if_neg hc, ih hcs]

theorem splitOnChar_sep_append (sep : Char) (xs ys : List Char) (h : sep ∉ xs) :
    splitOnChar sep (xs ++ sep :: ys) = xs :: splitOnChar sep ys := by
  induction xs with
  | nil => simp [splitOnChar]
  | cons c cs ih =>
    have hc : ¬ (c = sep) := fun e => h (e ▸ List.mem_cons_self c cs)
    have hcs : sep ∉ cs := fun m => h (List.mem_cons_of_mem _ m)
    simp only [List.cons_append, splitOnChar, if_neg hc, List.append_eq, ih hcs]

theorem getKey_setKey_self (g : Grid) (k : String) (v : Int) :
    getKey k (setKey g k v) = some v := by
  induction g with
  | nil => simp [setKey, getKey]
  | cons p rest ih =>
    obtain ⟨k1, v1⟩ := p
    by_cases h : k1 = k <;> simp [setKey, getKey, h, ih]

theorem getKey_setKey_ne (g : Grid) (k : String) (v : Int) (k' : String) (h : k' ≠ k) :
    getKey k' (setKey g k v) = getKey k' g := by
  have h2 : ¬ (k = k') := fun e => h e.symm
  induction g with
  | nil => simp [setKey, getKey, h2]
  | cons p rest ih =>
    obtain ⟨k1, v1⟩ := p
    by_cases h1 : k1 = k
    · subst h1
      simp [setKey, getKey, h2]
    · simp only [setKey, if_neg h1, getKey]
      by_cases h3 : k1 = k'
      · simp [h3]
      · simp [h3, ih]

theorem setKey_absent (g : Grid) (k : String) (v : Int) (h : getKey k g = none) :
    setKey g k v = g ++ [(k, v)] := by
  induction g with
  | nil => rfl
  | cons p rest ih =>
    obtain ⟨k1, v1⟩ := p
    by_cases h1 : k1 = k
    · simp [getKey, h1] at h
    · simp only [getKey, if_neg h1] at h
      simp [setKey, h1, ih h]

theorem getKey_append (k : String) (g1 g2 : Grid) :
    getKey k (g1 ++ g2) =
      match getKey k g1 with
      | some v => some v
      | none => getKey k g2 := by
  induction g1 with
  | nil => simp [getKey]
  | cons p rest ih =>
    obtain ⟨k1, v1⟩ := p
    by_cases h : k1 = k <;> simp [getKey, h, ih]

theorem pyNatVal_aux (s : List Char) (a : Nat) :
    s.foldl (fun a c => 10 * a + digitVal c) a = a * 10 ^ s.length + decimalVal s := by
  induction s generalizing a with
  | nil => simp [decimalVal, Nat.ofDigits]
  | cons c cs ih =>
    have hlen : ((cs.map digitVal).reverse).length = cs.length := by simp
    simp only [List.foldl_cons, ih, decimalVal, List.map_cons, List.reverse_cons,
               Nat.ofDigits_append, Nat.ofDigits_singleton, List.length_cons, hlen]
    ring

theorem pyNatVal_eq_decimalVal (s : List Char) : pyNatVal s = decimalVal s := by
  have := pyNatVal_aux s 0
  simpa [pyNatVal] using this

theorem decimalDigit_toNat {c : Char} (h : isDecimalDigit c = true) :
    48 ≤ c.toNat ∧ c.toNat ≤ 57 := by
  simp only [isDecimalDigit, Bool.and_eq_true, decide_eq_true_eq] at h
  exact h

theorem upperAZ_toNat {c : Char} (h : isUpperAZ c = true) :
    65 ≤ c.toNat ∧ c.toNat ≤ 90 := by
  simp only [isUpperAZ, Bool.and_eq_true, decide_eq_true_eq] at h
  exact h

theorem decimalDigit_not_upperAZ {c : Char} (h : isDecimalDigit c = true) :
    isUpperAZ c = false := by
  have hn := decimalDigit_toNat h
  simp only [isUpperAZ, Bool.and_eq_false_iff, decide_eq_false_iff_not]
  left
  omega

theorem decimalDigit_ne_colon {c : Char} (h : isDecimalDigit c = true) : c ≠ ':' := by
  intro e
  subst e
  exact absurd h (by decide)

theorem decimalDigit_ne_minus {c : Char} (h : isDecimalDigit c = true) : c ≠ '-' := by
  intro e
  subst e
  exact absurd h (by decide)

theorem decimalDigit_ne_plus {c : Char} (h : isDecimalDigit c = true) : c ≠ '+' := by
  intro e
  subst e
  exact absurd h (by decide)

theorem upperAZ_ne_colon {c : Char} (h : isUpperAZ c = true) : c ≠ ':' := by
  intro e
  subst e
  exact absurd h (by decide)

theorem pyInt_digits (d : List Char) (hne : d ≠ [])
    (hd : ∀ c ∈ d, isDecimalDigit c = true) :
    pyInt d = .ok ((decimalVal d : Int)) := by
  cases d with
  | nil => exact absurd rfl hne
  | cons c cs =>
    have hc : isDecimalDigit c = true := hd c (List.mem_cons_self c cs)
    have hall : (c :: cs).all isDecimalDigit = true := by
      simp only [List.all_eq_true]
      intro x hx
      exact hd x hx
    simp [pyInt, decimalDigit_ne_minus hc, decimalDigit_ne_plus hc, pyNatParse,
          hall, pyNatVal_eq_decimalVal, Except.map]

/-! ### The accepted range grammar and the grid a parse is expected to build -/

/-- A token of the form `<letter?><digits?>`, rendered as characters. -/
def renderTok (c : Option Char) (d : List Char) : List Char :=
  (match c with | some a => [a] | none => []) ++ d

/-- Well-formedness of one token of the grammar: the optional letter is
`A`-`Z`, the remainder is all digits, and the token is non-empty. -/
def wfTok (c : Option Char) (d : List Char) : Bool :=
  (match c with | some a => isUpperAZ a | none => true) &&
    d.all isDecimalDigit && (c.isSome || !d.isEmpty)

/-- Dictionary fragment contributed by the start token's letter. -/
def startColEntry : Option Char → Grid
  | some a => [("startColumnIndex", (a.toNat : Int) - 65)]
  | none => []

/-- Dictionary fragment contributed by the end token's letter. -/
def endColEntry : Option Char → Grid
  | some b => [("endColumnIndex", (b.toNat : Int) - 65 + 1)]
  | none => []

/-- Dictionary fragment contributed by the start token's digit remainder. -/
def startRowEntry (d : List Char) : Grid :=
  if d.isEmpty then [] else [("startRowIndex", (decimalVal d : Int) - 1)]

/-- Dictionary fragment contributed by the end token's digit remainder. -/
def endRowEntry (d : List Char) : Grid :=
  if d.isEmpty then [] else [("endRowIndex", (decimalVal d : Int))]

/-- The full dictionary (before `sheetId` is written) that parsing a
well-formed `<letter?><digits?>:<letter?><digits?>` range must build. -/
def boundsGrid (c1 : Option Char) (d1 : List Char) (c2 : Option Char) (d2 : List Char) : Grid :=
  startColEntry c1 ++ endColEntry c2 ++ startRowEntry d1 ++ endRowEntry d2

theorem colon_not_mem_renderTok (c : Option Char) (d : List Char) (hw : wfTok c d = true) :
    ':' ∉ renderTok c d := by
  simp only [wfTok, Bool.and_eq_true] at hw
  obtain ⟨⟨hc, hd⟩, hne⟩ := hw
  intro hmem
  simp only [renderTok, List.mem_append] at hmem
  rcases hmem with hmem | hmem
  · cases c with
    | none => simp at hmem
    | some a =>
      have ha : isUpperAZ a = true := hc
      simp only [List.mem_singleton] at hmem
      exact upperAZ_ne_colon ha hmem.symm
  · have := List.all_eq_true.mp hd _ hmem
    exact decimalDigit_ne_colon this rfl

theorem rowBound_digits (key : String) (d : List Char) (adj : Int)
    (hd : d.all isDecimalDigit = true) :
    rowBound key d adj =
      .ok (if d.isEmpty then [] else [(key, (decimalVal d : Int) + adj)]) := by
  cases d with
  | nil => simp [rowBound]
  | cons c cs =>
    have hne : (c :: cs) ≠ ([] : List Char) := by simp
    have := pyInt_digits (c :: cs) hne (fun x hx => List.all_eq_true.mp hd _ hx)
    simp [rowBound, this, Except.map]

theorem parseRange_split (t1 t2 : List Char) (h1 : ':' ∉ t1) (h2 : ':' ∉ t2) :
    parseRange (t1 ++ ':' :: t2) = parseCells t1 t2 := by
  unfold parseRange
  rw [splitOnChar_sep_append ':' t1 t2 h1, splitOnChar_no_sep ':' t2 h2]

theorem parseRange_extra_tokens (t1 t2 rest : List Char) (h1 : ':' ∉ t1) (h2 : ':' ∉ t2) :
    parseRange (t1 ++ ':' :: (t2 ++ ':' :: rest)) = parseCells t1 t2 := by
  unfold parseRange
  rw [splitOnChar_sep_append ':' t1 _ h1, splitOnChar_sep_append ':' t2 rest h2]

theorem parseCells_render (c1 : Option Char) (d1 : List Char) (c2 : Option Char)
    (d2 : List Char) (h1 : wfTok c1 d1 = true) (h2 : wfTok c2 d2 = true) :
    parseCells (renderTok c1 d1) (renderTok c2 d2) = .ok (boundsGrid c1 d1 c2 d2) := by
  simp only [wfTok, Bool.and_eq_true, Bool.or_eq_true, Bool.not_eq_true'] at h1 h2
  obtain ⟨⟨hc1, hd1⟩, hne1⟩ := h1
  obtain ⟨⟨hc2, hd2⟩, hne2⟩ := h2
  have hrow1 := rowBound_digits "startRowIndex" d1 (-1) hd1
  have hrow2 := rowBound_digits "endRowIndex" d2 0 hd2
  cases c1 with
  | some a =>
    have ha : isUpperAZ a = true := hc1
    cases c2 with
    | some b =>
      have hb : isUpperAZ b = true := hc2
      simp only [renderTok, List.singleton_append, parseCells, ha, hb, if_pos, hrow1,
                 hrow2, boundsGrid, startColEntry, endColEntry, startRowEntry, endRowEntry]
      split <;> split <;> simp [sub_eq_add_neg]
    | none =>
      rcases hne2 with hne2 | hne2
      · simp at hne2
      cases d2 with
      | nil => simp at hne2
      | cons b bs =>
        have hbd : isDecimalDigit b = true := List.all_eq_true.mp hd2 _ (List.mem_cons_self b bs)
        have hbAZ : isUpperAZ b = false := decimalDigit_not_upperAZ hbd
        simp only [renderTok, List.singleton_append, List.nil_append, parseCells, ha, hbAZ,
                   Bool.false_eq_true, if_pos, if_false, hrow1, hrow2, boundsGrid,
                   startColEntry, endColEntry, startRowEntry, endRowEntry]
        split <;> simp [sub_eq_add_neg]
  | none =>
    rcases hne1 with hne1 | hne1
    · simp at hne1
    cases d1 with
    | nil => simp at hne1
    | cons a as =>
      have had : isDecimalDigit a = true := List.all_eq_true.mp hd1 _ (List.mem_cons_self a as)
      have haAZ : isUpperAZ a = false := decimalDigit_not_upperAZ had
      cases c2 with
      | some b =>
        have hb : isUpperAZ b = true := hc2
        simp only [renderTok, List.singleton_append, List.nil_append, parseCells, haAZ, hb,
                   Bool.false_eq_true, if_pos, if_false, hrow1, hrow2, boundsGrid,
                   startColEntry, endColEntry, startRowEntry, endRowEntry]
        split <;> simp [sub_eq_add_neg]
      | none =>
        rcases hne2 with hne2 | hne2
        · simp at hne2
        cases d2 with
        | nil => simp at hne2
        | cons b bs =>
          have hbd : isDecimalDigit b = true :=
            List.all_eq_true.mp hd2 _ (List.mem_cons_self b bs)
          have hbAZ : isUpperAZ b = false := decimalDigit_not_upperAZ hbd
          simp only [renderTok, List.nil_append, parseCells, haAZ, hbAZ,
                     Bool.false_eq_true, if_false, hrow1, hrow2, boundsGrid,
                     startColEntry, endColEntry, startRowEntry, endRowEntry]
          simp [sub_eq_add_neg]

theorem parseRange_render (c1 : Option Char) (d1 : List Char) (c2 : Option Char)
    (d2 : List Char) (h1 : wfTok c1 d1 = true) (h2 : wfTok c2 d2 = true) :
    parseRange (renderTok c1 d1 ++ ':' :: renderTok c2 d2) =
      .ok (boundsGrid c1 d1 c2 d2) := by
  rw [parseRange_split _ _ (colon_not_mem_renderTok c1 d1 h1)
        (colon_not_mem_renderTok c2 d2 h2),
      parseCells_render c1 d1 c2 d2 h1 h2]

theorem getKey_sheetId_boundsGrid (c1 : Option Char) (d1 : List Char) (c2 : Option Char)
    (d2 : List Char) : getKey "sheetId" (boundsGrid c1 d1 c2 d2) = none := by
  have h1 : ("startColumnIndex" : String) ≠ "sheetId" := by decide
  have h2 : ("endColumnIndex" : String) ≠ "sheetId" := by decide
  have h3 : ("startRowIndex" : String) ≠ "sheetId" := by decide
  have h4 : ("endRowIndex" : String) ≠ "sheetId" := by decide
  cases c1 <;> cases c2 <;>
    simp only [boundsGrid, startColEntry, endColEntry, startRowEntry, endRowEntry] <;>
    split <;> split <;>
    simp [getKey, h1, h2, h3, h4]

/-- Cumulative description of `toGridRange` on a rendered well-formed
range string: the bounds dictionary followed by the `sheetId` entry. -/
theorem toGridRange_render (σ : SpreadsheetState) (sid : Int) (hσ : σ.sheetId = some sid)
    (c1 : Option Char) (d1 : List Char) (c2 : Option Char) (d2 : List Char)
    (h1 : wfTok c1 d1 = true) (h2 : wfTok c2 d2 = true) :
    toGridRange σ (.str (renderTok c1 d1 ++ ':' :: renderTok c2 d2)) =
      .ok (boundsGrid c1 d1 c2 d2 ++ [("sheetId", sid)]) := by
  simp only [toGridRange, hσ, parseRange_render c1 d1 c2 d2 h1 h2,
             setKey_absent _ _ _ (getKey_sheetId_boundsGrid c1 d1 c2 d2)]

theorem getKey_render_startCol (c1 : Option Char) (d1 : List Char) (c2 : Option Char)
    (d2 : List Char) (sid : Int) :
    getKey "startColumnIndex" (boundsGrid c1 d1 c2 d2 ++ [("sheetId", sid)]) =
      Option.map (fun a => (a.toNat : Int) - 65) c1 := by
  have h1 : ("endColumnIndex" : String) ≠ "startColumnIndex" := by decide
  have h2 : ("startRowIndex" : String) ≠ "startColumnIndex" := by decide
  have h3 : ("endRowIndex" : String) ≠ "startColumnIndex" := by decide
  have h4 : ("sheetId" : String) ≠ "startColumnIndex" := by decide
  cases c1 <;> cases c2 <;>
    by_cases hd1 : d1.isEmpty <;> by_cases hd2 : d2.isEmpty <;>
    simp [boundsGrid, startColEntry, endColEntry, startRowEntry, endRowEntry,
          hd1, hd2, getKey, h1, h2, h3, h4]

theorem getKey_render_endCol (c1 : Option Char) (d1 : List Char) (c2 : Option Char)
    (d2 : List Char) (sid : Int) :
    getKey "endColumnIndex" (boundsGrid c1 d1 c2 d2 ++ [("sheetId", sid)]) =
      Option.map (fun b => (b.toNat : Int) - 65 + 1) c2 := by
  have h1 : ("startColumnIndex" : String) ≠ "endColumnIndex" := by decide
  have h2 : ("startRowIndex" : String) ≠ "endColumnIndex" := by decide
  have h3 : ("endRowIndex" : String) ≠ "endColumnIndex" := by decide
  have h4 : ("sheetId" : String) ≠ "endColumnIndex" := by decide
  cases c1 <;> cases c2 <;>
    by_cases hd1 : d1.isEmpty <;> by_cases hd2 : d2.isEmpty <;>
    simp [boundsGrid, startColEntry, endColEntry, startRowEntry, endRowEntry,
          hd1, hd2, getKey, h1, h2, h3, h4]

theorem getKey_render_startRow (c1 : Option Char) (d1 : List Char) (c2 : Option Char)
    (d2 : List Char) (sid : Int) :
    getKey "startRowIndex" (boundsGrid c1 d1 c2 d2 ++ [("sheetId", sid)]) =
      (if d1.isEmpty then none else some ((decimalVal d1 : Int) - 1)) := by
  have h1 : ("startColumnIndex" : String) ≠ "startRowIndex" := by decide
  have h2 : ("endColumnIndex" : String) ≠ "startRowIndex" := by decide
  have h3 : ("endRowIndex" : String) ≠ "startRowIndex" := by decide
  have h4 : ("sheetId" : String) ≠ "startRowIndex" := by decide
  cases c1 <;> cases c2 <;>
    by_cases hd1 : d1.isEmpty <;> by_cases hd2 : d2.isEmpty <;>
    simp [boundsGrid, startColEntry, endColEntry, startRowEntry, endRowEntry,
          hd1, hd2, getKey, h1, h2, h3, h4]

theorem getKey_render_endRow (c1 : Option Char) (d1 : List Char) (c2 : Option Char)
    (d2 : List Char) (sid : Int) :
    getKey "endRowIndex" (boundsGrid c1 d1 c2 d2 ++ [("sheetId", sid)]) =
      (if d2.isEmpty then none else some ((decimalVal d2 : Int))) := by
  have h1 : ("startColumnIndex" : String) ≠ "endRowIndex" := by decide
  have h2 : ("endColumnIndex" : String) ≠ "endRowIndex" := by decide
  have h3 : ("startRowIndex" : String) ≠ "endRowIndex" := by decide
  have h4 : ("sheetId" : String) ≠ "endRowIndex" := by decide
  cases c1 <;> cases c2 <;>
    by_cases hd1 : d1.isEmpty <;> by_cases hd2 : d2.isEmpty <;>
    simp [boundsGrid, startColEntry, endColEntry, startRowEntry, endRowEntry,
          hd1, hd2, getKey, h1, h2, h3, h4]

/-! ### Concrete fixtures used by witnesses and counterexamples -/

/-- A session bound to spreadsheet "ssid", sheet id 7, sheet title
"Sheet1", with empty queues. -/
def sheetBoundState : SpreadsheetState :=
  ⟨some "ssid", some 7, some "Sheet1".toList, [], []⟩

/-- A freshly constructed session: nothing bound, empty queues. -/
def freshState : SpreadsheetState := ⟨none, none, none, [], []⟩

/-- A session with no spreadsheet bound but a structural request queued. -/
def unboundQueuedState : SpreadsheetState :=
  ⟨none, some 7, some "Sheet1".toList, [.addSheet "T".toList 1000 26], []⟩

/-- A fully bound session with one structural request and one value write
queued. -/
def queuedBoundState : SpreadsheetState :=
  ⟨some "ssid", some 7, some "Sheet1".toList, [.addSheet "T".toList 1000 26],
   [⟨"Sheet1!A1:A1".toList, "ROWS", [["x"]]⟩]⟩

/-- A remote service that acknowledges every request. -/
def svcEcho : Service :=
  ⟨fun _ reqs => .ok (reqs.map (fun _ => .otherReply "done")),
   fun _ _ data => .ok (data.map (fun _ => "ok"))⟩

/-- The reply a positionally aligned remote service gives for one
structural request: an add-sheet request is answered with an add-sheet
reply (new sheet id 42, same title), anything else with a plain reply. -/
def replyFor : Request → Reply
  | .addSheet t _ _ => .addSheetReply 42 t
  | _ => .otherReply "done"

/-- A positionally aligned remote service: one reply per request, in
request order, as the batch endpoint specifies. -/
def svcAligned : Service :=
  ⟨fun _ reqs => .ok (reqs.map replyFor),
   fun _ _ data => .ok (data.map (fun _ => "ok"))⟩

/-- A bound session with one dimension-resize request already queued. -/
def dimQueuedState : SpreadsheetState :=
  ⟨some "ssid", some 7, some "Sheet1".toList,
   [.updateDimensionProperties "COLUMNS" 7 0 1 500], []⟩

/-- A bound session with an empty structural queue and one value write
already queued. -/
def valuesQueuedState : SpreadsheetState :=
  ⟨some "ssid", some 7, some "Sheet1".toList, [],
   [⟨"Sheet1!A1:A1".toList, "ROWS", [["x"]]⟩]⟩

/-! ### Claim C1 -/

/-- Claim C1, counterexample to the claim as stated: `":B"` is a string of
the form `<letter?><digits?>:<letter?><digits?>` (start token with no
letter and no digits, end token `B`), and the claim demands a result
containing exactly `endColumnIndex = 2` and the sheet id; but
`toGridRange` raises `IndexError` at `startCell[0]` on the empty start
token and produces no result at all. -/
theorem toGridRange_empty_start_token_raises :
    sheetBoundState.sheetId = some 7 ∧
    toGridRange sheetBoundState (.str (':' :: ['B'])) = .error .indexError := by
  exact ⟨rfl, rfl⟩

/-- Claim C1 (amended: restricted to range strings whose two tokens are
each non-empty, i.e. contain a letter or digits or both — on an empty
token the code raises `IndexError` instead of returning a result): for
every range string `<letter?><digits?>:<letter?><digits?>` with a sheet
bound, the result contains exactly the bounds implied by the present
token parts, in dictionary insertion order, and omits the rest: the
start letter gives `startColumnIndex` = letter position (0-based), the
end letter gives `endColumnIndex` = position + 1, the start digit
remainder gives `startRowIndex` = value - 1, the end digit remainder
gives `endRowIndex` = value, and `sheetId` is the bound sheet id; tokens
beyond the second are ignored. -/
theorem toGridRange_string_bounds (σ : SpreadsheetState) (sid : Int)
    (hσ : σ.sheetId = some sid) (c1 : Option Char) (d1 : List Char) (c2 : Option Char)
    (d2 : List Char) (h1 : wfTok c1 d1 = true) (h2 : wfTok c2 d2 = true) :
    toGridRange σ (.str (renderTok c1 d1 ++ ':' :: renderTok c2 d2)) =
      .ok (boundsGrid c1 d1 c2 d2 ++ [("sheetId", sid)]) ∧
    ∀ extra : List Char,
      toGridRange σ (.str (renderTok c1 d1 ++ ':' :: (renderTok c2 d2 ++ ':' :: extra))) =
        .ok (boundsGrid c1 d1 c2 d2 ++ [("sheetId", sid)]) := by
  constructor
  · exact toGridRange_render σ sid hσ c1 d1 c2 d2 h1 h2
  · intro extra
    simp only [toGridRange, hσ,
               parseRange_extra_tokens _ _ extra (colon_not_mem_renderTok c1 d1 h1)
                 (colon_not_mem_renderTok c2 d2 h2),
               parseCells_render c1 d1 c2 d2 h1 h2,
               setKey_absent _ _ _ (getKey_sheetId_boundsGrid c1 d1 c2 d2)]

/-- Claim C1, witness: the three examples of the claim and one
extra-token example, all with sheet id 7 bound. -/
theorem toGridRange_string_bounds_witness :
    toGridRange sheetBoundState (.str "A3:B4".toList) =
      .ok [("startColumnIndex", 0), ("endColumnIndex", 2), ("startRowIndex", 2),
           ("endRowIndex", 4), ("sheetId", 7)] ∧
    toGridRange sheetBoundState (.str "A5:B".toList) =
      .ok [("startColumnIndex", 0), ("endColumnIndex", 2), ("startRowIndex", 4),
           ("sheetId", 7)] ∧
    toGridRange sheetBoundState (.str "A:B".toList) =
      .ok [("startColumnIndex", 0), ("endColumnIndex", 2), ("sheetId", 7)] ∧
    toGridRange sheetBoundState (.str "A3:B4:C9".toList) =
      .ok [("startColumnIndex", 0), ("endColumnIndex", 2), ("startRowIndex", 2),
           ("endRowIndex", 4), ("sheetId", 7)] := by
  have e1 := (toGridRange_string_bounds sheetBoundState 7 rfl (some 'A') ['3'] (some 'B')
    ['4'] (by decide) (by decide)).1
  have e2 := (toGridRange_string_bounds sheetBoundState 7 rfl (some 'A') ['5'] (some 'B')
    [] (by decide) (by decide)).1
  have e3 := (toGridRange_string_bounds sheetBoundState 7 rfl (some 'A') [] (some 'B')
    [] (by decide) (by decide)).1
  have e4 := (toGridRange_string_bounds sheetBoundState 7 rfl (some 'A') ['3'] (some 'B')
    ['4'] (by decide) (by decide)).2 ['C', '9']
  refine ⟨?_, ?_, ?_, ?_⟩
  · rw [show "A3:B4".toList = renderTok (some 'A') ['3'] ++ ':' :: renderTok (some 'B') ['4']
        from rfl, e1]
    rfl
  · rw [show "A5:B".toList = renderTok (some 'A') ['5'] ++ ':' :: renderTok (some 'B') []
        from rfl, e2]
    rfl
  · rw [show "A:B".toList = renderTok (some 'A') [] ++ ':' :: renderTok (some 'B') []
        from rfl, e3]
    rfl
  · rw [show "A3:B4:C9".toList = renderTok (some 'A') ['3'] ++
        ':' :: (renderTok (some 'B') ['4'] ++ ':' :: ['C', '9']) from rfl, e4]
    rfl

/-! ### Claim C4 -/

/-- Claim C4 (confirmed): for every input, `toGridRange` with no sheet
bound raises `SheetNotSetError` without producing a result; and whenever
it returns a result, the result's `sheetId` field is the bound sheet id. -/
theorem toGridRange_sheetId_binding :
    (∀ (σ : SpreadsheetState) (r : RangeInput), σ.sheetId = none →
      toGridRange σ r = .error .sheetNotSetError) ∧
    (∀ (σ : SpreadsheetState) (sid : Int) (r : RangeInput) (g : Grid),
      σ.sheetId = some sid → toGridRange σ r = .ok g →
      getKey "sheetId" g = some sid) := by
  constructor
  · intro σ r hσ
    simp only [toGridRange, hσ]
  · intro σ sid r hg hσ hok
    cases r with
    | grid g0 =>
      simp only [toGridRange, hσ] at hok
      cases hok
      exact getKey_setKey_self g0 "sheetId" sid
    | str s =>
      simp only [toGridRange, hσ] at hok
      cases hp : parseRange s with
      | error e => rw [hp] at hok; cases hok
      | ok g0 =>
        rw [hp] at hok
        cases hok
        exact getKey_setKey_self g0 "sheetId" sid

/-- Claim C4, witness: with no sheet bound every input raises; with sheet
id 7 bound the parsed result of "A3:B4" carries `sheetId = 7`. -/
theorem toGridRange_sheetId_binding_witness :
    toGridRange freshState (.str "A3:B4".toList) = .error .sheetNotSetError ∧
    getKey "sheetId" [("startColumnIndex", 0), ("endColumnIndex", 2), ("startRowIndex", 2),
                      ("endRowIndex", 4), ("sheetId", 7)] = some 7 := by
  constructor
  · exact toGridRange_sheetId_binding.1 freshState (.str "A3:B4".toList) rfl
  · exact toGridRange_sheetId_binding.2 sheetBoundState 7 (.str "A3:B4".toList)
      [("startColumnIndex", 0), ("endColumnIndex", 2), ("startRowIndex", 2),
       ("endRowIndex", 4), ("sheetId", 7)] rfl rfl

/-! ### Claim C5 -/

/-- Claim C5, counterexample: with a sheet bound, the range string `"A3:"`
(end token empty: no letter, no digits) does not return normally with an
open end side as the claim states — `toGridRange` raises `IndexError` at
`endCell[0]`. -/
theorem toGridRange_empty_end_token_raises :
    sheetBoundState.sheetId = some 7 ∧
    toGridRange sheetBoundState (.str "A3:".toList) = .error .indexError := by
  exact ⟨rfl, rfl⟩

/-- Claim C5 (amended: an empty token does not yield an open side; it
makes the call fail): with a sheet bound, every range string whose start
token is empty (the string starts with the separator), and every range
string whose end token is empty (a separator-free start token followed by
a trailing separator), makes `toGridRange` raise `IndexError` instead of
returning a range. -/
theorem toGridRange_empty_token (σ : SpreadsheetState) (sid : Int)
    (hσ : σ.sheetId = some sid) :
    (∀ t : List Char, toGridRange σ (.str (':' :: t)) = .error .indexError) ∧
    (∀ t : List Char, ':' ∉ t → toGridRange σ (.str (t ++ [':'])) = .error .indexError) := by
  constructor
  · intro t
    have hne := splitOnChar_ne_nil ':' t
    simp only [toGridRange, hσ]
    have hsplit : splitOnChar ':' (':' :: t) = [] :: splitOnChar ':' t := by
      simp [splitOnChar]
    cases hrest : splitOnChar ':' t with
    | nil => exact absurd hrest hne
    | cons e rest =>
      simp only [parseRange, hsplit, hrest, parseCells]
  · intro t ht
    simp only [toGridRange, hσ]
    have hsplit : splitOnChar ':' (t ++ [':']) = t :: [[]] := by
      have := splitOnChar_sep_append ':' t [] ht
      simpa [splitOnChar] using this
    cases t with
    | nil => simp only [parseRange, hsplit, parseCells]
    | cons c cs => simp only [parseRange, hsplit, parseCells]

/-- Claim C5, witness: both empty-token shapes raise `IndexError` at
concrete inputs `":B4"` and `"A3:"` (amended behavior). -/
theorem toGridRange_empty_token_witness :
    toGridRange sheetBoundState (.str (':' :: "B4".toList)) = .error .indexError ∧
    toGridRange sheetBoundState (.str ("A3".toList ++ [':'])) = .error .indexError := by
  exact ⟨(toGridRange_empty_token sheetBoundState 7 rfl).1 "B4".toList,
         (toGridRange_empty_token sheetBoundState 7 rfl).2 "A3".toList (by decide)⟩

/-! ### Claim C6 -/

/-- Claim C6, counterexample: `"Z:A"` and `"B3:B1"` are accepted-form
range strings, yet the produced GridRange has `startColumnIndex = 25 >
endColumnIndex = 1` (resp. `startRowIndex = 2 > endRowIndex = 1`): the
resolver performs no reordering or validation, so the claimed invariant
start ≤ end fails. -/
theorem toGridRange_unordered_counterexample :
    (toGridRange sheetBoundState (.str "Z:A".toList) =
       .ok [("startColumnIndex", 25), ("endColumnIndex", 1), ("sheetId", 7)] ∧
     ¬ ((25 : Int) ≤ 1)) ∧
    (toGridRange sheetBoundState (.str "B3:B1".toList) =
       .ok [("startColumnIndex", 1), ("endColumnIndex", 2), ("startRowIndex", 2),
            ("endRowIndex", 1), ("sheetId", 7)] ∧
     ¬ ((2 : Int) ≤ 1)) := by
  exact ⟨⟨rfl, by decide⟩, ⟨rfl, by decide⟩⟩

/-- Claim C6 (amended: the invariant start ≤ end holds for a dimension
exactly when the input itself is ordered in that dimension — start letter
not after end letter, start row number not above end row number; the
resolver does not enforce it on anti-ordered inputs such as "Z:A"): for
every accepted-form range string whose column letters and row numbers are
ordered, whenever both bounds of a dimension are present in the result,
start ≤ end holds. -/
theorem toGridRange_ordered_bounds (σ : SpreadsheetState) (sid : Int)
    (hσ : σ.sheetId = some sid) (c1 : Option Char) (d1 : List Char) (c2 : Option Char)
    (d2 : List Char) (h1 : wfTok c1 d1 = true) (h2 : wfTok c2 d2 = true) (g : Grid)
    (hg : toGridRange σ (.str (renderTok c1 d1 ++ ':' :: renderTok c2 d2)) = .ok g)
    (hcol : ∀ a b : Char, c1 = some a → c2 = some b → a.toNat ≤ b.toNat)
    (hrow : d1 ≠ [] → d2 ≠ [] → decimalVal d1 ≤ decimalVal d2) :
    (∀ x y : Int, getKey "startColumnIndex" g = some x →
      getKey "endColumnIndex" g = some y → x ≤ y) ∧
    (∀ x y : Int, getKey "startRowIndex" g = some x →
      getKey "endRowIndex" g = some y → x ≤ y) := by
  rw [toGridRange_render σ sid hσ c1 d1 c2 d2 h1 h2] at hg
  cases hg
  constructor
  · intro x y hx hy
    rw [getKey_render_startCol] at hx
    rw [getKey_render_endCol] at hy
    cases c1 with
    | none => simp at hx
    | some a =>
      cases c2 with
      | none => simp at hy
      | some b =>
        simp only [Option.map_some'] at hx hy
        cases hx
        cases hy
        have hab := hcol a b rfl rfl
        omega
  · intro x y hx hy
    rw [getKey_render_startRow] at hx
    rw [getKey_render_endRow] at hy
    cases hd1 : d1.isEmpty with
    | true => rw [hd1] at hx; simp at hx
    | false =>
      cases hd2 : d2.isEmpty with
      | true => rw [hd2] at hy; simp at hy
      | false =>
        rw [hd1] at hx
        rw [hd2] at hy
        simp only [Bool.false_eq_true, if_false, Option.some_inj] at hx hy
        cases hx
        cases hy
        have hne1 : d1 ≠ [] := by intro e; subst e; simp at hd1
        have hne2 : d2 ≠ [] := by intro e; subst e; simp at hd2
        have hle := hrow hne1 hne2
        omega

/-- Claim C6, witness: for the ordered input "A3:B4" both dimensions
satisfy start ≤ end on the produced GridRange. -/
theorem toGridRange_ordered_bounds_witness :
    (∀ x y : Int,
      getKey "startColumnIndex" [("startColumnIndex", 0), ("endColumnIndex", 2),
        ("startRowIndex", 2), ("endRowIndex", 4), ("sheetId", 7)] = some x →
      getKey "endColumnIndex" [("startColumnIndex", 0), ("endColumnIndex", 2),
        ("startRowIndex", 2), ("endRowIndex", 4), ("sheetId", 7)] = some y → x ≤ y) ∧
    (∀ x y : Int,
      getKey "startRowIndex" [("startColumnIndex", 0), ("endColumnIndex", 2),
        ("startRowIndex", 2), ("endRowIndex", 4), ("sheetId", 7)] = some x →
      getKey "endRowIndex" [("startColumnIndex", 0), ("endColumnIndex", 2),
        ("startRowIndex", 2), ("endRowIndex", 4), ("sheetId", 7)] = some y → x ≤ y) := by
  exact toGridRange_ordered_bounds sheetBoundState 7 rfl (some 'A') ['3'] (some 'B') ['4']
    (by decide) (by decide)
    [("startColumnIndex", 0), ("endColumnIndex", 2), ("startRowIndex", 2),
     ("endRowIndex", 4), ("sheetId", 7)] rfl
    (fun a b ha hb => by cases ha; cases hb; decide)
    (fun _ _ => by decide)

/-! ### Claim C8 -/

/-- Claim C8 (confirmed): an already-structured range passed to
`toGridRange` with a sheet bound is returned with `sheetId` overwritten
to the bound sheet id and every other field (any key other than
"sheetId", including keys outside the four bounds) unchanged. -/
theorem toGridRange_structured_passthrough (σ : SpreadsheetState) (sid : Int) (g : Grid)
    (hσ : σ.sheetId = some sid) :
    toGridRange σ (.grid g) = .ok (setKey g "sheetId" sid) ∧
    getKey "sheetId" (setKey g "sheetId" sid) = some sid ∧
    (∀ k, k ≠ "sheetId" → getKey k (setKey g "sheetId" sid) = getKey k g) := by
  refine ⟨?_, getKey_setKey_self g "sheetId" sid,
          fun k hk => getKey_setKey_ne g "sheetId" sid k hk⟩
  simp only [toGridRange, hσ]

/-- Claim C8, witness: a pre-built partial range with an extra custom
field and a stale `sheetId` comes back with `sheetId` rewritten to 7 and
the other fields intact. -/
theorem toGridRange_structured_passthrough_witness :
    toGridRange sheetBoundState
        (.grid [("startRowIndex", 5), ("customField", 3), ("sheetId", 99)]) =
      .ok [("startRowIndex", 5), ("customField", 3), ("sheetId", 7)] ∧
    getKey "startRowIndex" [("startRowIndex", 5), ("customField", 3), ("sheetId", 7)] =
      some 5 := by
  constructor
  · exact (toGridRange_structured_passthrough sheetBoundState 7
      [("startRowIndex", 5), ("customField", 3), ("sheetId", 99)] rfl).1
  · rfl

/-! ### Claims about the batch queues -/

theorem runPrepared_state (svc : Service) (vio : String) (σ : SpreadsheetState)
    (ssid : String) (hσ : σ.spreadsheetId = some ssid) :
    (runPrepared svc vio σ).1 = { σ with requests := [], valueRanges := [] } := by
  unfold runPrepared
  rw [hσ]
  dsimp only
  repeat' split
  all_goals rfl

/-- Claim C2, counterexample: with no spreadsheet bound and a non-empty
structural queue, flush raises `SpreadsheetNotSetError` before the
`try/finally`, so the exception propagates with both queues intact — the
claimed "for every session state (any spreadsheet binding) the queues are
emptied before the exception propagates" fails, and the second call is
again a raising call, not a no-op. -/
theorem runPrepared_unbound_keeps_queues :
    runPrepared svcEcho "USER_ENTERED" unboundQueuedState =
      (unboundQueuedState, [], .error .spreadsheetNotSetError) ∧
    unboundQueuedState.requests = [.addSheet "T".toList 1000 26] := by
  exact ⟨rfl, rfl⟩

/-- Claim C2 (amended: restricted to states with a spreadsheet bound —
with none bound, flush raises before the `try/finally` and both queues
survive): for every bound session state, queue contents and remote
outcome, flush leaves both queues empty whether it returns or raises, and
an immediately repeated flush is a no-op that issues no outbound calls
and returns two empty lists. -/
theorem runPrepared_clears_queues (svc : Service) (vio : String) (σ : SpreadsheetState)
    (ssid : String) (hσ : σ.spreadsheetId = some ssid) :
    ((runPrepared svc vio σ).1.requests = [] ∧ (runPrepared svc vio σ).1.valueRanges = []) ∧
    runPrepared svc vio (runPrepared svc vio σ).1 =
      ((runPrepared svc vio σ).1, [], .ok ([], [])) := by
  have hstate := runPrepared_state svc vio σ ssid hσ
  rw [hstate]
  exact ⟨⟨rfl, rfl⟩, by unfold runPrepared; rw [hσ]; rfl⟩

/-- Claim C2, witness: a bound session with one queued request and one
queued value write, flushed against an always-succeeding service. -/
theorem runPrepared_clears_queues_witness :
    ((runPrepared svcEcho "USER_ENTERED" queuedBoundState).1.requests = [] ∧
     (runPrepared svcEcho "USER_ENTERED" queuedBoundState).1.valueRanges = []) ∧
    runPrepared svcEcho "USER_ENTERED" (runPrepared svcEcho "USER_ENTERED" queuedBoundState).1 =
      ((runPrepared svcEcho "USER_ENTERED" queuedBoundState).1, [], .ok ([], [])) := by
  exact runPrepared_clears_queues svcEcho "USER_ENTERED" queuedBoundState "ssid" rfl

/-! ### Claim C3 -/

/-- Claim C3, counterexample: on a fresh session (no spreadsheet bound,
no sheet bound), queuing the structural request
`prepare_setColumnWidth(0, 500)` does not succeed at queue time — it
raises `SheetNotSetError` immediately and leaves the queue untouched,
contradicting "queuing a structural request when no spreadsheet
identifier is bound succeeds at queue time without raising". -/
theorem prepare_unbound_raises_at_queue_time :
    freshState.spreadsheetId = none ∧
    prepare_setColumnWidth freshState 0 500 = (freshState, .error .sheetNotSetError) := by
  exact ⟨rfl, rfl⟩

/-- Claim C3 (amended: `prepare_addSheet` queues without raising in every
state; the dimension-resizing operation `prepare_setDimensionPixelSize`
(and its column/row wrappers) checks only the sheet binding at queue
time — raising `SheetNotSetError` when no sheet is bound and appending
whenever one is, regardless of the spreadsheet binding; the
range-resolving operations `prepare_mergeCells`, `prepare_setCellsFormat`
and `prepare_setCellsFormats` run `toGridRange` at queue time, so they
raise whatever it raises — `SheetNotSetError` with no sheet bound, and
even with a sheet bound `IndexError`/`ValueError` on a malformed range —
leaving the state unchanged, and append only when resolution succeeds;
no prepare operation checks the spreadsheet binding, whose
`SpreadsheetNotSetError` is raised only when flush runs, and flush raises
it whenever no spreadsheet identifier is set). -/
theorem structural_queue_validation :
    (∀ (σ : SpreadsheetState) (t : List Char) (r c : Int),
      prepare_addSheet σ t r c =
        { σ with requests := σ.requests ++ [.addSheet t r c] }) ∧
    (∀ (σ : SpreadsheetState) (sid : Int) (d : String) (a b p : Int),
      σ.sheetId = some sid →
      prepare_setDimensionPixelSize σ d a b p =
        ({ σ with requests := σ.requests ++ [.updateDimensionProperties d sid a b p] },
         .ok ())) ∧
    (∀ (σ : SpreadsheetState) (d : String) (a b p : Int),
      σ.sheetId = none →
      prepare_setDimensionPixelSize σ d a b p = (σ, .error .sheetNotSetError)) ∧
    (∀ (σ : SpreadsheetState) (r : RangeInput) (m : String) (e : Err),
      toGridRange σ r = .error e →
      prepare_mergeCells σ r m = (σ, .error e)) ∧
    (∀ (σ : SpreadsheetState) (r : RangeInput) (m : String) (g : Grid),
      toGridRange σ r = .ok g →
      prepare_mergeCells σ r m =
        ({ σ with requests := σ.requests ++ [.mergeCells g m] }, .ok ())) ∧
    (∀ (σ : SpreadsheetState) (r : RangeInput) (f fs : String) (e : Err),
      toGridRange σ r = .error e →
      prepare_setCellsFormat σ r f fs = (σ, .error e)) ∧
    (∀ (σ : SpreadsheetState) (r : RangeInput) (f fs : String) (g : Grid),
      toGridRange σ r = .ok g →
      prepare_setCellsFormat σ r f fs =
        ({ σ with requests := σ.requests ++ [.repeatCell g f fs] }, .ok ())) ∧
    (∀ (σ : SpreadsheetState) (r : RangeInput) (f : List (List String)) (fs : String)
      (e : Err), toGridRange σ r = .error e →
      prepare_setCellsFormats σ r f fs = (σ, .error e)) ∧
    (∀ (σ : SpreadsheetState) (r : RangeInput) (f : List (List String)) (fs : String)
      (g : Grid), toGridRange σ r = .ok g →
      prepare_setCellsFormats σ r f fs =
        ({ σ with requests := σ.requests ++ [.updateCells g f fs] }, .ok ())) ∧
    (∀ (svc : Service) (vio : String) (σ : SpreadsheetState),
      σ.spreadsheetId = none →
      runPrepared svc vio σ = (σ, [], .error .spreadsheetNotSetError)) := by
  refine ⟨fun σ t r c => rfl, ?_, ?_, ?_, ?_, ?_, ?_, ?_, ?_, ?_⟩
  · intro σ sid d a b p hσ
    simp only [prepare_setDimensionPixelSize, hσ]
  · intro σ d a b p hσ
    simp only [prepare_setDimensionPixelSize, hσ]
  · intro σ r m e h
    simp only [prepare_mergeCells, h]
  · intro σ r m g h
    simp only [prepare_mergeCells, h]
  · intro σ r f fs e h
    simp only [prepare_setCellsFormat, h]
  · intro σ r f fs g h
    simp only [prepare_setCellsFormat, h]
  · intro σ r f fs e h
    simp only [prepare_setCellsFormats, h]
  · intro σ r f fs g h
    simp only [prepare_setCellsFormats, h]
  · intro svc vio σ hσ
    simp only [runPrepared, hσ]

/-- Claim C3, witness: `prepare_addSheet` queues on a completely unbound
session; `prepare_setDimensionPixelSize` queues when only a sheet is
bound; `prepare_mergeCells` raises `SheetNotSetError` at queue time with
no sheet bound and `IndexError` at queue time on range "A3:" even with a
sheet bound, leaving the state unchanged; `prepare_setCellsFormat`
appends on a resolvable range; and flushing an unbound session raises
`SpreadsheetNotSetError`. -/
theorem structural_queue_validation_witness :
    prepare_addSheet freshState "T".toList 1000 26 =
      { freshState with requests := [.addSheet "T".toList 1000 26] } ∧
    prepare_setDimensionPixelSize unboundQueuedState "COLUMNS" 2 5 150 =
      ({ unboundQueuedState with
          requests := unboundQueuedState.requests ++
            [.updateDimensionProperties "COLUMNS" 7 2 5 150] }, .ok ()) ∧
    prepare_mergeCells freshState (.str "A1:B2".toList) "MERGE_ALL" =
      (freshState, .error .sheetNotSetError) ∧
    prepare_mergeCells sheetBoundState (.str "A3:".toList) "MERGE_ALL" =
      (sheetBoundState, .error .indexError) ∧
    prepare_setCellsFormat sheetBoundState (.str "B2:E7".toList) "fmt" "userEnteredFormat" =
      ({ sheetBoundState with
          requests := [.repeatCell
            [("startColumnIndex", 1), ("endColumnIndex", 5), ("startRowIndex", 1),
             ("endRowIndex", 7), ("sheetId", 7)] "fmt" "userEnteredFormat"] }, .ok ()) ∧
    runPrepared svcEcho "USER_ENTERED" unboundQueuedState =
      (unboundQueuedState, [], .error .spreadsheetNotSetError) := by
  refine ⟨structural_queue_validation.1 freshState "T".toList 1000 26,
          structural_queue_validation.2.1 unboundQueuedState 7 "COLUMNS" 2 5 150 rfl,
          structural_queue_validation.2.2.2.1 freshState (.str "A1:B2".toList)
            "MERGE_ALL" .sheetNotSetError rfl,
          structural_queue_validation.2.2.2.1 sheetBoundState (.str "A3:".toList)
            "MERGE_ALL" .indexError rfl,
          (structural_queue_validation.2.2.2.2.2.2.1 sheetBoundState
            (.str "B2:E7".toList) "fmt" "userEnteredFormat"
            [("startColumnIndex", 1), ("endColumnIndex", 5), ("startRowIndex", 1),
             ("endRowIndex", 7), ("sheetId", 7)] rfl).trans (by rfl),
          structural_queue_validation.2.2.2.2.2.2.2.2.2 svcEcho "USER_ENTERED"
            unboundQueuedState rfl⟩

/-! ### Claim C7 -/

/-- Claim C7 (confirmed): queuing a value write with no sheet title bound
raises `SheetNotSetError` and leaves the value-write queue (indeed the
whole state) unchanged; with a title bound it appends an entry whose
range is exactly `<sheetTitle> ++ "!" ++ <cellsRange>` together with the
given values and major-dimension flag. -/
theorem prepare_setValues_spec :
    (∀ (σ : SpreadsheetState) (r : List Char) (v : List (List String)) (m : String),
      σ.sheetTitle = none →
      prepare_setValues σ r v m = (σ, .error .sheetNotSetError)) ∧
    (∀ (σ : SpreadsheetState) (t : List Char) (r : List Char) (v : List (List String))
      (m : String), σ.sheetTitle = some t →
      prepare_setValues σ r v m =
        ({ σ with valueRanges := σ.valueRanges ++ [⟨t ++ '!' :: r, m, v⟩] }, .ok ())) := by
  constructor
  · intro σ r v m hσ
    simp only [prepare_setValues, hσ]
  · intro σ t r v m hσ
    simp only [prepare_setValues, hσ]

/-- Claim C7, witness: the claim's own scenario — sheet title "Sheet1",
range "A1:A1", values [["x"]] — queues range "Sheet1!A1:A1"; and an
unbound session raises with its queue unchanged. -/
theorem prepare_setValues_spec_witness :
    prepare_setValues freshState "A1:A1".toList [["x"]] "ROWS" =
      (freshState, .error .sheetNotSetError) ∧
    prepare_setValues sheetBoundState "A1:A1".toList [["x"]] "ROWS" =
      ({ sheetBoundState with
          valueRanges := [⟨"Sheet1!A1:A1".toList, "ROWS", [["x"]]⟩] }, .ok ()) := by
  constructor
  · exact prepare_setValues_spec.1 freshState "A1:A1".toList [["x"]] "ROWS" rfl
  · exact (prepare_setValues_spec.2 sheetBoundState "Sheet1".toList "A1:A1".toList
      [["x"]] "ROWS" rfl).trans (by rfl)

/-! ### Claim C9 -/

/-- Claim C9 (confirmed): for every state, column index and width, the
single-column convenience operation queues exactly what the column-range
operation spanning [c, c] queues — the two results (state and outcome)
are identical. -/
theorem setColumnWidth_eq_setColumnsWidth (σ : SpreadsheetState) (col width : Int) :
    prepare_setColumnWidth σ col width = prepare_setColumnsWidth σ col col width := rfl

/-! ### Claim C10 -/

theorem runPrepared_success (svc : Service) (vio : String) (σ : SpreadsheetState)
    (ssid : String) (replies : List Reply) (resps : List String)
    (hσ : σ.spreadsheetId = some ssid) (hreq : σ.requests ≠ [])
    (hbatch : svc.batchUpdate ssid σ.requests = .ok replies)
    (hval : σ.valueRanges = [] ∨
      svc.valuesBatchUpdate ssid vio σ.valueRanges = .ok resps) :
    runPrepared svc vio σ =
      ({ σ with requests := [], valueRanges := [] },
       .structuralCall ssid σ.requests ::
         (if σ.valueRanges.isEmpty then [] else [.valuesCall ssid vio σ.valueRanges]),
       .ok (replies, if σ.valueRanges.isEmpty then [] else resps)) := by
  obtain ⟨sp, sh, st, reqs, vrs⟩ := σ
  simp only at hσ hreq hbatch hval
  subst hσ
  have hre : reqs.isEmpty = false := by
    cases reqs with
    | nil => exact absurd rfl hreq
    | cons a l => rfl
  simp only [runPrepared, hre, Bool.false_eq_true, if_false, hbatch]
  cases vrs with
  | nil => rfl
  | cons v vs =>
    rcases hval with hval | hval
    · cases hval
    · rw [hval]
      rfl

theorem runPrepared_calls_head (svc : Service) (vio : String) (σ : SpreadsheetState)
    (ssid : String) (hσ : σ.spreadsheetId = some ssid) (hreq : σ.requests ≠ []) :
    ∃ rest, (runPrepared svc vio σ).2.1 = .structuralCall ssid σ.requests :: rest := by
  obtain ⟨sp, sh, st, reqs, vrs⟩ := σ
  simp only at hσ hreq ⊢
  subst hσ
  have hre : reqs.isEmpty = false := by
    cases reqs with
    | nil => exact absurd rfl hreq
    | cons a l => rfl
  simp only [runPrepared, hre, Bool.false_eq_true, if_false]
  cases svc.batchUpdate ssid reqs with
  | error e => exact ⟨[], rfl⟩
  | ok replies =>
    cases vrs with
    | nil => exact ⟨[], rfl⟩
    | cons v vs =>
      cases svc.valuesBatchUpdate ssid vio (v :: vs) with
      | ok r => exact ⟨[.valuesCall ssid vio (v :: vs)], rfl⟩
      | error e => exact ⟨[.valuesCall ssid vio (v :: vs)], rfl⟩

/-- Claim C10, counterexample: with a structural request already queued
and a positionally aligned remote service (one reply per request, in
order), the whole batch succeeds remotely, yet `addSheet` does not rebind
to the newly added sheet and does not return its identifier: it reads
`replies[0]`, which is the reply of the previously queued
dimension-resize request, and raises `KeyError` at `['addSheet']`,
leaving the old sheet binding (id 7) in place. -/
theorem addSheet_first_reply_counterexample :
    dimQueuedState.requests = [.updateDimensionProperties "COLUMNS" 7 0 1 500] ∧
    svcAligned.batchUpdate "ssid" (dimQueuedState.requests ++ [.addSheet "Q".toList 500 11]) =
      .ok [.otherReply "done", .addSheetReply 42 "Q".toList] ∧
    addSheet svcAligned dimQueuedState "Q".toList 500 11 =
      ({ dimQueuedState with requests := [], valueRanges := [] },
       [.structuralCall "ssid" [.updateDimensionProperties "COLUMNS" 7 0 1 500,
                                .addSheet "Q".toList 500 11]],
       .error .keyError) := by
  exact ⟨rfl, rfl, rfl⟩

/-- Claim C10 (amended: `addSheet` flushes every previously queued
structural request and value write in the same round trips as the
add-sheet request — which is appended last to the structural batch — and
clears both queues on every outcome; but because it reads the FIRST
structural reply, on success it rebinds to whatever sheet that first
reply reports (raising `KeyError` when the first reply is not an
add-sheet reply, as happens with positionally aligned replies whenever a
structural request was already queued); it therefore rebinds to the newly
added sheet and returns its identifier only when the add-sheet reply
comes first, in particular when the structural queue was empty before the
call). -/
theorem addSheet_spec (svc : Service) (σ : SpreadsheetState) (ssid : String)
    (t : List Char) (r c : Int) (hσ : σ.spreadsheetId = some ssid) :
    ((addSheet svc σ t r c).1.requests = [] ∧ (addSheet svc σ t r c).1.valueRanges = []) ∧
    (∃ rest, (addSheet svc σ t r c).2.1 =
      .structuralCall ssid (σ.requests ++ [.addSheet t r c]) :: rest) ∧
    (∀ (p : String) (rest : List Reply) (resps : List String),
      svc.batchUpdate ssid (σ.requests ++ [.addSheet t r c]) =
        .ok (.otherReply p :: rest) →
      (σ.valueRanges = [] ∨
        svc.valuesBatchUpdate ssid "USER_ENTERED" σ.valueRanges = .ok resps) →
      addSheet svc σ t r c =
        ({ σ with requests := [], valueRanges := [] },
         .structuralCall ssid (σ.requests ++ [.addSheet t r c]) ::
           (if σ.valueRanges.isEmpty then []
            else [.valuesCall ssid "USER_ENTERED" σ.valueRanges]),
         .error .keyError)) ∧
    (∀ (sid2 : Int) (t2 : List Char) (rest : List Reply) (resps : List String),
      svc.batchUpdate ssid (σ.requests ++ [.addSheet t r c]) =
        .ok (.addSheetReply sid2 t2 :: rest) →
      (σ.valueRanges = [] ∨
        svc.valuesBatchUpdate ssid "USER_ENTERED" σ.valueRanges = .ok resps) →
      addSheet svc σ t r c =
        ({ σ with sheetId := some sid2, sheetTitle := some t2,
                  requests := [], valueRanges := [] },
         .structuralCall ssid (σ.requests ++ [.addSheet t r c]) ::
           (if σ.valueRanges.isEmpty then []
            else [.valuesCall ssid "USER_ENTERED" σ.valueRanges]),
         .ok sid2)) := by
  have hσ1 : (prepare_addSheet σ t r c).spreadsheetId = some ssid := hσ
  have hne : (prepare_addSheet σ t r c).requests ≠ [] := by
    simp only [prepare_addSheet]
    cases σ.requests with
    | nil => simp
    | cons a l => simp
  refine ⟨?_, ?_, ?_, ?_⟩
  · have hrp := runPrepared_state svc "USER_ENTERED" (prepare_addSheet σ t r c) ssid hσ1
    rcases hr : runPrepared svc "USER_ENTERED" (prepare_addSheet σ t r c)
      with ⟨σ2, calls, res⟩
    have hσ2 : σ2 = { prepare_addSheet σ t r c with requests := [], valueRanges := [] } := by
      rw [hr] at hrp
      exact hrp
    cases res with
    | error e => simp [addSheet, hσ, hr, hσ2]
    | ok v =>
      rcases v with ⟨replies, resps0⟩
      cases replies with
      | nil => simp [addSheet, hσ, hr, hσ2]
      | cons reply rest =>
        cases reply with
        | addSheetReply sid2 t2 => simp [addSheet, hσ, hr, hσ2]
        | otherReply p => simp [addSheet, hσ, hr, hσ2]
  · obtain ⟨rest0, hrest⟩ :=
      runPrepared_calls_head svc "USER_ENTERED" (prepare_addSheet σ t r c) ssid hσ1 hne
    refine ⟨rest0, ?_⟩
    rcases hr : runPrepared svc "USER_ENTERED" (prepare_addSheet σ t r c)
      with ⟨σ2, calls, res⟩
    rw [hr] at hrest
    cases res with
    | error e => simpa [addSheet, hσ, hr] using hrest
    | ok v =>
      rcases v with ⟨replies, resps0⟩
      cases replies with
      | nil => simpa [addSheet, hσ, hr] using hrest
      | cons reply rest =>
        cases reply with
        | addSheetReply sid2 t2 => simpa [addSheet, hσ, hr] using hrest
        | otherReply p => simpa [addSheet, hσ, hr] using hrest
  · intro p rest resps hbatch hval
    have hrun := runPrepared_success svc "USER_ENTERED" (prepare_addSheet σ t r c) ssid
      (.otherReply p :: rest) resps hσ1 hne hbatch hval
    simp only [addSheet, hσ, hrun]
    simp [prepare_addSheet, hσ]
  · intro sid2 t2 rest resps hbatch hval
    have hrun := runPrepared_success svc "USER_ENTERED" (prepare_addSheet σ t r c) ssid
      (.addSheetReply sid2 t2 :: rest) resps hσ1 hne hbatch hval
    simp only [addSheet, hσ, hrun]
    simp [prepare_addSheet, hσ]

/-- Claim C10, witness: against the positionally aligned service — with a
previously queued structural request, the first reply is not the
add-sheet reply and `addSheet` ends in `KeyError` with the old binding
kept; with only a value write queued, the add-sheet reply comes first and
`addSheet` batches the value write into the same flush, clears the
queues, rebinds to sheet 42 "Q" and returns 42. -/
theorem addSheet_spec_witness :
    ((addSheet svcAligned dimQueuedState "Q".toList 500 11).1.requests = [] ∧
     (addSheet svcAligned dimQueuedState "Q".toList 500 11).1.valueRanges = []) ∧
    addSheet svcAligned dimQueuedState "Q".toList 500 11 =
      (⟨some "ssid", some 7, some "Sheet1".toList, [], []⟩,
       [.structuralCall "ssid" [.updateDimensionProperties "COLUMNS" 7 0 1 500,
                                .addSheet "Q".toList 500 11]],
       .error .keyError) ∧
    addSheet svcAligned valuesQueuedState "Q".toList 500 11 =
      (⟨some "ssid", some 42, some "Q".toList, [], []⟩,
       [.structuralCall "ssid" [.addSheet "Q".toList 500 11],
        .valuesCall "ssid" "USER_ENTERED" [⟨"Sheet1!A1:A1".toList, "ROWS", [["x"]]⟩]],
       .ok 42) := by
  have h1 := addSheet_spec svcAligned dimQueuedState "ssid" "Q".toList 500 11 rfl
  have h2 := addSheet_spec svcAligned valuesQueuedState "ssid" "Q".toList 500 11 rfl
  exact ⟨h1.1,
         (h1.2.2.1 "done" [.addSheetReply 42 "Q".toList] [] rfl (Or.inl rfl)).trans (by rfl),
         (h2.2.2.2 42 "Q".toList [] ["ok"] rfl (Or.inr rfl)).trans (by rfl)⟩

end SheetsClient
